import Mathlib

/-!
Verification development for the ai-shopping-agent repository.

The development shallowly embeds the pure logic of the three core
components (retailer scrapers, product matcher, style analyzer) of the
source tree.  External effects are made explicit:

* the DOM queries of BeautifulSoup are abstracted into an `Anchor`
  record carrying, for one selected anchor element, exactly the data the
  per-anchor parsing code reads from the tree (`href`, stripped text,
  the name element's text, the image element found by the
  link-then-3-ancestors search, and the price text found by the
  4-level ancestor search);
* HTTP fetches and vision-model calls are inputs: an `Oracle` record
  holds the image-fetch response and the model's raw response text, and
  `json.loads` is a parameter `jp : String → Option JVal` (an external
  library routine; `none` models a JSONDecodeError);
* Python strings are Lean `String`s; the handful of `str` methods the
  source uses (`split`, `strip`, `replace`, `title`, `startswith`,
  containment) are re-implemented char-by-char below so that every
  definition evaluates by `rfl`/`decide`;
* values produced by `json.loads` are modelled by the inductive `JVal`.
  JSON numbers are modelled as integers (the protocol asks the model
  for an integer score); float handling is outside the model.
  The dataclass type annotations of the source (`score: int`,
  `color_palette: list[str]`, ...) are not enforced by Python, so the
  corresponding Lean fields hold raw `JVal` values, exactly as the
  running program does;
* base64 encoding of image bytes is injective bookkeeping with no
  bearing on any claim; fetched image data is carried verbatim.

Exceptions become `Option`/`Except` values: a unit of code whose
exceptions are swallowed by a caller returns `Option`, and
`StyleAnalyzer.analyze_style_images`, which can raise past its
boundary, returns `Except AnalyzeErr StyleProfile`.
-/

/-! ## JSON values (results of Python `json.loads`) -/

inductive JVal where
  | null : JVal
  | bool : Bool → JVal
  | num : Int → JVal
  | str : String → JVal
  | arr : List JVal → JVal
  | obj : List (String × JVal) → JVal

/-- Python `dict.get(k)` over the key/value pairs of a parsed JSON
object.  Later bindings shadow earlier ones, as in a Python dict built
left to right. -/
def dictGet (d : List (String × JVal)) (k : String) : Option JVal :=
  d.foldl (fun acc kv => if kv.1 == k then some kv.2 else acc) none

/-! ## Python string primitives, re-implemented structurally -/

/-- The segment of `cs` before the first occurrence of `sep`
(`cs` itself when `sep` does not occur): Python `s.split(sep)[0]`. -/
def beforeFirst (sep : List Char) : List Char → List Char
  | [] => []
  | c :: rest =>
    if sep.isPrefixOf (c :: rest) then []
    else c :: beforeFirst sep rest

/-- Everything after the first occurrence of a non-empty `sep`, or
`none` when `sep` does not occur.  `(afterFirst sep cs).isSome` is
Python `sep in s` for non-empty `sep`. -/
def afterFirst (sep : List Char) : List Char → Option (List Char)
  | [] => none
  | c :: rest =>
    if sep.isPrefixOf (c :: rest) then some ((c :: rest).drop sep.length)
    else afterFirst sep rest

/-- Python `sub in s`. -/
def pyContains (s : String) (sub : String) : Bool :=
  sub == "" || (afterFirst sub.data s.data).isSome

/-- Python `s.startswith(pre)`. -/
def pyStartsWith (s : String) (pre : String) : Bool :=
  pre.data.isPrefixOf s.data

/-- Python `s.split(c)[0]` for a single-character separator: the prefix
before the first occurrence of `c`. -/
def pySplitHeadChar (c : Char) (s : String) : String :=
  String.mk (s.data.takeWhile (fun x => x != c))

/-- Python `s.strip()` (whitespace stripped from both ends). -/
def pyStrip (s : String) : String :=
  String.mk (((s.data.dropWhile Char.isWhitespace).reverse.dropWhile
    Char.isWhitespace).reverse)

/-- Worker for `pyReplace`: `skip` counts matched characters still to be
dropped after a replacement was emitted. -/
def pyReplaceAux (pat rep : List Char) : List Char → Nat → List Char
  | [], _ => []
  | c :: rest, 0 =>
    if pat.isPrefixOf (c :: rest) then
      rep ++ pyReplaceAux pat rep rest (pat.length - 1)
    else
      c :: pyReplaceAux pat rep rest 0
  | _ :: rest, Nat.succ k => pyReplaceAux pat rep rest k

/-- Python `s.replace(pat, rep)` for non-empty `pat`: every
non-overlapping occurrence, scanning left to right. -/
def pyReplace (s pat rep : String) : String :=
  if pat == "" then s
  else String.mk (pyReplaceAux pat.data rep.data s.data 0)

/-- One step of Python `str.title()`: an alphabetic character is
uppercased after a non-alphabetic character and lowercased otherwise. -/
def pyTitleAux : List Char → Bool → List Char
  | [], _ => []
  | c :: rest, prevAlpha =>
    if c.isAlpha then
      (if prevAlpha then c.toLower else c.toUpper) :: pyTitleAux rest true
    else
      c :: pyTitleAux rest false

/-- Python `s.title()` (ASCII view, which is all the slugs contain). -/
def pyTitle (s : String) : String :=
  String.mk (pyTitleAux s.data false)

/-- First chain of `x or y or ...` over optional attribute strings:
Python `or` keeps the first truthy operand (a present, non-empty
string) and otherwise falls through; the overall default is `""`. -/
def pyOrStr : List (Option String) → String
  | [] => ""
  | some s :: rest => if s != "" then s else pyOrStr rest
  | none :: rest => pyOrStr rest

/-- Truthiness of an optional string attribute (`img.get("srcset")`). -/
def truthyOpt : Option String → Bool
  | some s => s != ""
  | none => false

/-- Python `s.split()[0]`: the first whitespace-separated token, or
`none` (an IndexError in the source) when the string has no token. -/
def firstWsToken (s : String) : Option String :=
  match s.data.dropWhile Char.isWhitespace with
  | [] => none
  | c :: rest => some (String.mk ((c :: rest).takeWhile (fun x => !x.isWhitespace)))

/-- Python list slice `xs[:k]` for an `int` bound `k` (a negative bound
counts from the end, clamped at zero). -/
def pySliceTo (k : Int) (xs : List α) : List α :=
  if k < 0 then xs.take (xs.length - k.natAbs) else xs.take k.toNat

/-- Markdown-fence stripping shared verbatim by the matcher and the
analyzer:

    if "```json" in t: t = t.split("```json")[1].split("```")[0]
    elif "```" in t:   t = t.split("```")[1].split("```")[0]

`t.split(sep)[1]` is the segment between the first and second
occurrence of `sep`, and the subsequent `.split("```")[0]` cuts at the
first triple-backtick; since "```" is a prefix of "```json", the second
occurrence of "```json" never precedes the first occurrence of "```"
in the remainder, so the composite is: take what follows the first
occurrence, then cut at the next "```". -/
def stripFencing (s : String) : String :=
  match afterFirst "```json".data s.data with
  | some rest => String.mk (beforeFirst "```".data rest)
  | none =>
    match afterFirst "```".data s.data with
    | some rest => String.mk (beforeFirst "```".data rest)
    | none => s

/-! ## Product (src/src/models/product.py) -/

structure Product where
  name : String
  price : String
  url : String
  image_url : String
  retailer : String
  category : Option String := none
  colors : List String := []
  sizes : List String := []
  description : Option String := none

/-! ## Scraper DOM abstraction

`Anchor` packages what the per-anchor code of
`SezaneScraper.parse_products` / `ArketScraper.parse_products` reads
out of the DOM for one selected `<a>` element.  The element searches
themselves (`link.find("img")` plus the 3-level ancestor walk, the
4-level ancestor price walk, `select_one` for a name element) traverse
uncontrolled markup and are abstracted into their results. -/

/-- The `<img>` element located by the image search, if any, with the
three attributes the source reads from it. -/
structure ImgEl where
  src : Option String
  dataSrc : Option String
  srcset : Option String

structure Anchor where
  /-- `link.get("href", "")`. -/
  href : String
  /-- `link.get_text(strip=True)`. -/
  text : String := ""
  /-- Text of `link.select_one('[class*="name"], ...')`, when found. -/
  nameElText : Option String := none
  /-- Image element found in the link or up to 3 ancestor levels. -/
  img : Option ImgEl := none
  /-- Price text found near the link (regex text node or price-classed
  element, post-strip), when found within 4 ancestor levels. -/
  priceText : Option String := none

/-- Shared image-URL extraction (identical lines in both scrapers):
first truthy of `src`/`data-src`, else the first token of the first
comma-separated `srcset` entry (whose absence raises an IndexError,
returned here as `none` and caught by the per-anchor try/except), then
protocol-relative and root-relative resolution. -/
def imageUrlFromImg (base : String) (img : Option ImgEl) : Option String :=
  match img with
  | none => some ""
  | some i =>
    let u0 := pyOrStr [i.src, i.dataSrc]
    let u1 : Option String :=
      if u0 == "" then
        if truthyOpt i.srcset then
          firstWsToken (String.mk (beforeFirst ",".data (i.srcset.getD "").data))
        else some u0
      else some u0
    u1.map (fun u =>
      if u != "" && !pyStartsWith u "http" then
        if pyStartsWith u "//" then "https:" ++ u else base ++ u
      else u)

/-- Absolute-URL resolution shared by both scrapers:
`href if href.startswith("http") else BASE_URL + href`. -/
def fullUrl (base : String) (href : String) : String :=
  if pyStartsWith href "http" then href else base ++ href

/-- Leftmost-position scan of a char-level matcher, as `re.search`
does: try the matcher at every suffix, earliest position first. -/
def scanPositions (f : List Char → Option (List Char)) : List Char → Option (List Char)
  | [] => none
  | c :: rest =>
    match f (c :: rest) with
    | some r => some r
    | none => scanPositions f rest

/-- The shared dedup loop of both `parse_products` implementations
(src/src/scrapers/sezane.py lines 25-45, arket.py lines 38-56),
parameterized by the retailer-specific href guard, URL normalization
and per-anchor builder.  The normalized URL is recorded in `seen`
before the anchor is parsed, so an anchor whose parse raises (the
builder returns `none`; the loop's try/except swallows the error) still
claims its URL. -/
def parseLoop (guard : Anchor → Bool) (norm : Anchor → String)
    (build : Anchor → String → Option Product) :
    List Anchor → List Product → List String → List Product
  | [], products, _seen => products
  | link :: rest, products, seen =>
    if guard link then
      let base_url := norm link
      if base_url ∈ seen then parseLoop guard norm build rest products seen
      else
        parseLoop guard norm build rest
          (products ++ (build link base_url).toList) (seen ++ [base_url])
    else parseLoop guard norm build rest products seen

/-! ## SezaneScraper (src/src/scrapers/sezane.py) -/

def sezaneBaseUrl : String := "https://www.sezane.com"

/-- Matcher for the name regex `/product/([^/]+)` at one position. -/
def sezaneSlugAt (cs : List Char) : Option (List Char) :=
  if "/product/".data.isPrefixOf cs then
    let cap := (cs.drop 9).takeWhile (fun c => c != '/')
    if cap.isEmpty then none else some cap
  else none

/-- `re.search(r'/product/([^/]+)', url)`: the URL slug the product
name is derived from. -/
def sezaneSlug (s : String) : Option String :=
  (scanPositions sezaneSlugAt s.data).map String.mk

/-- Matcher for the color regex `/product/[^/]+/([^/?#]+)` at one
position. -/
def sezaneColorAt (cs : List Char) : Option (List Char) :=
  if "/product/".data.isPrefixOf cs then
    let rest := cs.drop 9
    let seg1 := rest.takeWhile (fun c => c != '/')
    if seg1.isEmpty then none
    else
      match rest.drop seg1.length with
      | '/' :: rest2 =>
        let cap := rest2.takeWhile (fun c => c != '/' && c != '?' && c != '#')
        if cap.isEmpty then none else some cap
      | _ => none
  else none

/-- `re.search(r'/product/[^/]+/([^/?#]+)', url)`: the color path
segment. -/
def sezaneColor (s : String) : Option String :=
  (scanPositions sezaneColorAt s.data).map String.mk

/-- `SezaneScraper._parse_product_link` (the unused `full_url`
parameter of the source is omitted).  The collaboration-name rewrite
`re.sub(r'\s+Sezane\s+X\s+', ' × ', name, IGNORECASE)` is modelled for
the single-space, title-cased form the preceding
`replace('-', ' ').title()` produces from a URL slug.  The only
exception the source body can raise is the srcset IndexError inside the
image extraction, reported as `none`. -/
def SezaneScraper.parse_product_link (link : Anchor) (base_url : String) : Option Product :=
  let name :=
    match sezaneSlug base_url with
    | some slug => pyReplace (pyTitle (pyReplace slug "-" " ")) " Sezane X " " × "
    | none => "Unknown"
  let colors :=
    match sezaneColor base_url with
    | some seg => [pyTitle (pyReplace seg "-" " ")]
    | none => []
  match imageUrlFromImg sezaneBaseUrl link.img with
  | none => none
  | some image_url =>
    some { name := name, price := link.priceText.getD "N/A", url := base_url,
           image_url := image_url, retailer := "Sezane", colors := colors }

/-- The loop guard `if not href or "/product/" not in href: continue`. -/
def sezaneGuard (a : Anchor) : Bool :=
  a.href != "" && pyContains a.href "/product/"

/-- URL normalization: absolute URL with the fragment removed
(`full_url.split('#')[0]`). -/
def sezaneNorm (a : Anchor) : String :=
  pySplitHeadChar '#' (fullUrl sezaneBaseUrl a.href)

/-- `SezaneScraper.parse_products`, from the list of anchors the
selector `a[href*="/product/"]` returned. -/
def SezaneScraper.parse_products (anchors : List Anchor) : List Product :=
  parseLoop sezaneGuard sezaneNorm SezaneScraper.parse_product_link anchors [] []

/-! ## ArketScraper (src/src/scrapers/arket.py) -/

def arketBaseUrl : String := "https://www.arket.com"

/-- Matcher for `/p/([^/?]+)` at one position. -/
def arketPSlugAt (cs : List Char) : Option (List Char) :=
  if "/p/".data.isPrefixOf cs then
    let cap := (cs.drop 3).takeWhile (fun c => c != '/' && c != '?')
    if cap.isEmpty then none else some cap
  else none

/-- Matcher for `/([^/]+)\.html` at one position; the greedy `[^/]+`
backtracks to the longest capture still followed by ".html". -/
def arketHtmlAt (cs : List Char) : Option (List Char) :=
  match cs with
  | '/' :: rest =>
    let run := rest.takeWhile (fun c => c != '/')
    match (List.range run.length).reverse.find?
        (fun k => decide (1 ≤ k) && ".html".data.isPrefixOf (rest.drop k)) with
    | some k => some (run.take k)
    | none => none
  | _ => none

/-- The URL-derived fallback name:
`re.search(r'/p/([^/?]+)', url) or re.search(r'/([^/]+)\.html', url)`,
slug de-dashed and title-cased, else "Unknown". -/
def arketUrlName (url : String) : String :=
  match (scanPositions arketPSlugAt url.data).map String.mk with
  | some s => pyTitle (pyReplace s "-" " ")
  | none =>
    match (scanPositions arketHtmlAt url.data).map String.mk with
    | some s => pyTitle (pyReplace s "-" " ")
    | none => "Unknown"

/-- `ArketScraper._parse_product_link`.  Name resolution: anchor text
when its length lies in (3, 100), else the name element's text, else
the URL fallback (also taken when the found text is empty). -/
def ArketScraper.parse_product_link (link : Anchor) (url : String) : Option Product :=
  let name0 : Option String :=
    if link.text != "" && decide (3 < link.text.length) && decide (link.text.length < 100)
    then some link.text else none
  let name1 : Option String :=
    match name0 with
    | some n => some n
    | none => link.nameElText
  let name : String :=
    match name1 with
    | some n => if n != "" then n else arketUrlName url
    | none => arketUrlName url
  match imageUrlFromImg arketBaseUrl link.img with
  | none => none
  | some image_url =>
    some { name := name, price := link.priceText.getD "N/A", url := url,
           image_url := image_url, retailer := "Arket", colors := [] }

/-- The loop guard
`if not href or ("/p/" not in href and "/product" not in href)`. -/
def arketGuard (a : Anchor) : Bool :=
  a.href != "" && (pyContains a.href "/p/" || pyContains a.href "/product")

/-- URL normalization: absolute URL with query parameters removed
(`full_url.split('?')[0]`). -/
def arketNorm (a : Anchor) : String :=
  pySplitHeadChar '?' (fullUrl arketBaseUrl a.href)

/-- `ArketScraper.parse_products`, from the anchors its selectors
returned. -/
def ArketScraper.parse_products (anchors : List Anchor) : List Product :=
  parseLoop arketGuard arketNorm ArketScraper.parse_product_link anchors [] []

/-! ## ProductMatcher (src/src/vision/product_matcher.py) -/

/-- An HTTP response for the image fetch: `ok` is whether
`raise_for_status` passes, the others are the content-type header and
body. `none` at the use site models a request that raised. -/
structure HttpImgResponse where
  ok : Bool
  contentType : Option String
  content : String

/-- `MatchResult`.  The Python field annotations (`score: int`, ...) are
unenforced; the constructor stores whatever `result.get` produced, so
the fields hold raw JSON values. -/
structure MatchResult where
  product : Product
  score : JVal
  reasoning : JVal
  style_notes : JVal
  suggested_pairings : JVal

/-- The external effects of one `match_product` call: the image-fetch
HTTP exchange and the model call's response text (`none` models an API
error or empty content, both caught by the source's try/except). -/
structure Oracle where
  imgResp : Option HttpImgResponse
  modelText : Option String

/-- `ProductMatcher._fetch_image`: `none` on network error, non-2xx
status, or non-image content type; otherwise the (base64-encoded,
carried verbatim here) body and cleaned media type. -/
def ProductMatcher.fetch_image (resp : Option HttpImgResponse) : Option (String × String) :=
  match resp with
  | none => none
  | some r =>
    if !r.ok then none
    else
      let ct0 := r.contentType.getD "image/jpeg"
      let ct := if pyContains ct0 ";" then String.mk (beforeFirst ";".data ct0.data) else ct0
      if !pyStartsWith ct "image/" then none
      else some (r.content, ct)

/-- `ProductMatcher.match_product`: `none` for a missing image URL, a
failed fetch, a failed model call, unparseable JSON, or JSON that is
not an object (`.get` on a non-dict raises, swallowed by the source's
try/except).  On a parsed object the four payload fields are read with
`result.get(key, default)`. -/
def ProductMatcher.match_product (jp : String → Option JVal) (o : Oracle)
    (product : Product) : Option MatchResult :=
  if product.image_url == "" then none
  else
    match ProductMatcher.fetch_image o.imgResp with
    | none => none
    | some _ =>
      match o.modelText with
      | none => none
      | some response_text =>
        match jp (pyStrip (stripFencing response_text)) with
        | some (JVal.obj result) =>
          some { product := product
               , score := (dictGet result "score").getD (JVal.num 0)
               , reasoning := (dictGet result "reasoning").getD (JVal.str "")
               , style_notes := (dictGet result "style_notes").getD (JVal.str "")
               , suggested_pairings := (dictGet result "suggested_pairings").getD (JVal.arr []) }
        | _ => none

/-- Python `score >= min_score` on a raw JSON score: defined for
numbers and booleans (Python `bool` is an `int`), a `TypeError` —
caught by the collection loop — otherwise. -/
def pyGeInt : JVal → Int → Option Bool
  | JVal.num n, k => some (decide (k ≤ n))
  | JVal.bool b, k => some (decide (k ≤ if b then (1 : Int) else 0))
  | _, _ => none

/-- Sort key of a kept result.  Every kept result passed `pyGeInt`, so
its score is a number or boolean; the default is dead code. -/
def scoreKey : JVal → Int
  | JVal.num n => n
  | JVal.bool b => if b then 1 else 0
  | _ => 0

/-- The result-collection loop over completed futures: a product whose
task returned a result at or above `min_score` is appended; a result
below threshold, a `None` result, and an exception (including the
`TypeError` of a non-numeric score comparison) contribute nothing.
Completion order of the pool is scheduler-dependent; it is modelled by
submission order, which all properties proved below are invariant
under. -/
def ProductMatcher.collect_results (jp : String → Option JVal) (env : Product → Oracle)
    (min_score : Int) : List Product → List MatchResult
  | [] => []
  | p :: rest =>
    match ProductMatcher.match_product jp (env p) p with
    | some r =>
      match pyGeInt r.score min_score with
      | some true => r :: ProductMatcher.collect_results jp env min_score rest
      | _ => ProductMatcher.collect_results jp env min_score rest
    | none => ProductMatcher.collect_results jp env min_score rest

/-- The dispatch list: products with a non-empty `image_url`, truncated
to `limit` entries only when `limit` is truthy (`None` and `0` are both
falsy, so neither truncates). -/
def ProductMatcher.products_to_match (products : List Product) (limit : Option Int) :
    List Product :=
  let products_with_images := products.filter (fun p => p.image_url != "")
  match limit with
  | none => products_with_images
  | some l => if l == 0 then products_with_images else pySliceTo l products_with_images

/-- Descending-score order used by `results.sort(key=..., reverse=True)`. -/
def scoreGE (a b : MatchResult) : Prop :=
  scoreKey b.score ≤ scoreKey a.score

instance : DecidableRel scoreGE :=
  fun a b => inferInstanceAs (Decidable (scoreKey b.score ≤ scoreKey a.score))

instance : IsTotal MatchResult scoreGE :=
  ⟨fun a b => le_total (scoreKey b.score) (scoreKey a.score)⟩

instance : IsTrans MatchResult scoreGE :=
  ⟨fun _ _ _ h1 h2 => le_trans h2 h1⟩

/-- `ProductMatcher.match_products`.  The final in-place sort is
Python's stable Timsort with `reverse=True`; a stable sort under a
total preorder is extensionally unique, so it is rendered by a stable
insertion sort under `scoreGE`. -/
def ProductMatcher.match_products (jp : String → Option JVal) (env : Product → Oracle)
    (products : List Product) (min_score : Int) (limit : Option Int) : List MatchResult :=
  let dispatched := ProductMatcher.products_to_match products limit
  let results := ProductMatcher.collect_results jp env min_score dispatched
  results.insertionSort scoreGE

/-! ## StyleProfile and StyleAnalyzer (src/src/vision/style_analyzer.py) -/

/-- `StyleProfile`.  As with `MatchResult`, the dataclass annotations
are unenforced and `from_dict` stores raw parsed values, so the fields
are raw JSON values; the defaults mirror the dataclass defaults. -/
structure StyleProfile where
  color_palette : JVal := JVal.arr []
  preferred_styles : JVal := JVal.arr []
  silhouettes : JVal := JVal.arr []
  patterns : JVal := JVal.arr []
  materials : JVal := JVal.arr []
  aesthetics : JVal := JVal.arr []
  avoid : JVal := JVal.arr []
  summary : JVal := JVal.str ""

def StyleProfile.to_dict (p : StyleProfile) : List (String × JVal) :=
  [ ("color_palette", p.color_palette)
  , ("preferred_styles", p.preferred_styles)
  , ("silhouettes", p.silhouettes)
  , ("patterns", p.patterns)
  , ("materials", p.materials)
  , ("aesthetics", p.aesthetics)
  , ("avoid", p.avoid)
  , ("summary", p.summary) ]

def styleProfileFieldNames : List String :=
  [ "color_palette", "preferred_styles", "silhouettes", "patterns"
  , "materials", "aesthetics", "avoid", "summary" ]

/-- `StyleProfile.from_dict(data) = cls(**data)`: any key that is not a
dataclass field raises a `TypeError` (`none` here); a missing key
falls back to the field's default. -/
def StyleProfile.from_dict (d : List (String × JVal)) : Option StyleProfile :=
  if d.all (fun kv => styleProfileFieldNames.contains kv.1) then
    some { color_palette := (dictGet d "color_palette").getD (JVal.arr [])
         , preferred_styles := (dictGet d "preferred_styles").getD (JVal.arr [])
         , silhouettes := (dictGet d "silhouettes").getD (JVal.arr [])
         , patterns := (dictGet d "patterns").getD (JVal.arr [])
         , materials := (dictGet d "materials").getD (JVal.arr [])
         , aesthetics := (dictGet d "aesthetics").getD (JVal.arr [])
         , avoid := (dictGet d "avoid").getD (JVal.arr [])
         , summary := (dictGet d "summary").getD (JVal.str "") }
  else none

/-- One reference-image source: whether `path.exists()` holds, plus the
bytes and suffix the loader would read.  The source checks existence
before opening, so readability is modelled by `pathExists`. -/
structure ImgSource where
  pathExists : Bool
  content : String
  suffix : String

/-- The image-content list `analyze_style_images` builds: the first ten
supplied sources (`image_paths[:10]`), keeping those that exist. -/
def StyleAnalyzer.valid_images (images : List ImgSource) : List ImgSource :=
  (images.take 10).filter (fun i => i.pathExists)

/-- How `analyze_style_images` can terminate abnormally:
`valueError` for its two explicit input checks, `apiError` for an
uncaught failure of the un-try-wrapped model call, and `typeError` for
`cls(**data)` applied to parsed JSON that is not an object or has an
unexpected key — only `json.JSONDecodeError` is caught. -/
inductive AnalyzeErr where
  | valueError : String → AnalyzeErr
  | apiError : AnalyzeErr
  | typeError : AnalyzeErr

/-- Whether an abnormal outcome is one of the declared input errors. -/
def AnalyzeErr.isInputError : AnalyzeErr → Bool
  | AnalyzeErr.valueError _ => true
  | _ => false

/-- `StyleAnalyzer.analyze_style_images`.  `modelText = none` models a
model call that raised.  On a JSON parse failure the sentinel profile
is returned; on parsed JSON rejected by `cls(**data)` the TypeError
escapes. -/
def StyleAnalyzer.analyze_style_images (jp : String → Option JVal)
    (modelText : Option String) (images : List ImgSource) : Except AnalyzeErr StyleProfile :=
  if images.isEmpty then Except.error (AnalyzeErr.valueError "No images provided")
  else
    let content := StyleAnalyzer.valid_images images
    if content.isEmpty then Except.error (AnalyzeErr.valueError "No valid images found")
    else
      match modelText with
      | none => Except.error AnalyzeErr.apiError
      | some response_text =>
        match jp (pyStrip (stripFencing response_text)) with
        | none => Except.ok { summary := JVal.str "Could not parse style profile" }
        | some (JVal.obj d) =>
          match StyleProfile.from_dict d with
          | some p => Except.ok p
          | none => Except.error AnalyzeErr.typeError
        | some _ => Except.error AnalyzeErr.typeError

/-- `StyleAnalyzer.save_profile`: the JSON document written to disk,
modelled structurally (the json library's text encode/decode of such a
document is assumed faithful). -/
def StyleAnalyzer.save_profile (p : StyleProfile) : JVal :=
  JVal.obj p.to_dict

/-- `StyleAnalyzer.load_profile`: `StyleProfile.from_dict(json.load(f))`;
a file whose document is not an object makes `cls(**data)` raise. -/
def StyleAnalyzer.load_profile (j : JVal) : Option StyleProfile :=
  match j with
  | JVal.obj d => StyleProfile.from_dict d
  | _ => none

/-! ## Helper lemmas about the shared dedup loop -/

theorem parseLoop_filter_frozen (guard : Anchor → Bool) (norm : Anchor → String)
    (build : Anchor → String → Option Product)
    (hb : ∀ a u p, build a u = some p → p.url = u)
    (u : String) (rest : List Anchor) :
    ∀ (ps : List Product) (seen : List String), u ∈ seen →
      (parseLoop guard norm build rest ps seen).filter (fun q => q.url == u) =
        ps.filter (fun q => q.url == u) := by
  induction rest with
  | nil => intro ps seen _; simp [parseLoop]
  | cons a rest ih =>
    intro ps seen hu
    simp only [parseLoop]
    by_cases hg : guard a
    · simp only [hg, if_true]
      by_cases hmem : norm a ∈ seen
      · simp only [hmem, if_true]
        exact ih ps seen hu
      · simp only [hmem, if_false]
        have hne : norm a ≠ u := fun h => hmem (h ▸ hu)
        rw [ih (ps ++ (build a (norm a)).toList) (seen ++ [norm a])
          (List.mem_append_left _ hu)]
        rw [List.filter_append]
        have hnil : ((build a (norm a)).toList).filter (fun q => q.url == u) = [] := by
          cases hbd : build a (norm a) with
          | none => simp
          | some p =>
            have hpu : p.url = norm a := hb a (norm a) p hbd
            have hbeq : (p.url == u) = false := by
              rw [hpu]; exact beq_eq_false_iff_ne.mpr hne
            simp [Option.toList, List.filter, hbeq]
        rw [hnil, List.append_nil]
    · simp only [hg, if_false]
      exact ih ps seen hu

/-- The products a `parse_products` run keeps for one normalized URL
`u`, before `u` was ever seen: whatever the first guarded anchor
normalizing to `u` builds. -/
theorem parseLoop_filter_find (guard : Anchor → Bool) (norm : Anchor → String)
    (build : Anchor → String → Option Product)
    (hb : ∀ a u p, build a u = some p → p.url = u)
    (u : String) (rest : List Anchor) :
    ∀ (ps : List Product) (seen : List String), u ∉ seen →
      (parseLoop guard norm build rest ps seen).filter (fun q => q.url == u) =
        ps.filter (fun q => q.url == u) ++
          (match rest.find? (fun x => guard x && (norm x == u)) with
           | some a => (build a u).toList
           | none => []) := by
  induction rest with
  | nil => intro ps seen _; simp [parseLoop]
  | cons a rest ih =>
    intro ps seen hu
    simp only [parseLoop]
    by_cases hg : guard a
    · simp only [hg, if_true]
      by_cases hmem : norm a ∈ seen
      · simp only [hmem, if_true]
        have hne : norm a ≠ u := fun h => hu (h ▸ hmem)
        have hbeq : (norm a == u) = false := beq_eq_false_iff_ne.mpr hne
        rw [List.find?_cons_of_neg _ (by simp [hg, hbeq])]
        exact ih ps seen hu
      · simp only [hmem, if_false]
        by_cases heq : norm a = u
        · have hbeq : (norm a == u) = true := beq_iff_eq.mpr heq
          rw [List.find?_cons_of_pos _ (by simp [hg, hbeq])]
          rw [parseLoop_filter_frozen guard norm build hb u rest _ _
            (by rw [← heq]; exact List.mem_append_right _ (List.mem_singleton.mpr rfl))]
          rw [List.filter_append]
          congr 1
          cases hbd : build a (norm a) with
          | none => rw [heq] at hbd; simp [hbd]
          | some p =>
            have hpu : p.url = norm a := hb a (norm a) p hbd
            have hpeq : (p.url == u) = true := beq_iff_eq.mpr (hpu.trans heq)
            rw [heq] at hbd
            simp [hbd, Option.toList, List.filter, hpeq]
        · have hbeq : (norm a == u) = false := beq_eq_false_iff_ne.mpr heq
          rw [List.find?_cons_of_neg _ (by simp [hbeq])]
          rw [ih (ps ++ (build a (norm a)).toList) (seen ++ [norm a])
            (by intro hmm
                rcases List.mem_append.mp hmm with h | h
                · exact hu h
                · exact heq (List.mem_singleton.mp h).symm)]
          rw [List.filter_append]
          have hnil : ((build a (norm a)).toList).filter (fun q => q.url == u) = [] := by
            cases hbd : build a (norm a) with
            | none => simp
            | some p =>
              have hpu : p.url = norm a := hb a (norm a) p hbd
              have hbq : (p.url == u) = false := by
                rw [hpu]; exact beq_eq_false_iff_ne.mpr heq
              simp [Option.toList, List.filter, hbq]
          rw [hnil, List.append_nil]
    · simp only [hg, if_false]
      rw [List.find?_cons_of_neg _ (by simp [hg])]
      exact ih ps seen hu

/-- URLs of the kept products are pairwise distinct. -/
theorem parseLoop_nodup (guard : Anchor → Bool) (norm : Anchor → String)
    (build : Anchor → String → Option Product)
    (hb : ∀ a u p, build a u = some p → p.url = u)
    (rest : List Anchor) :
    ∀ (ps : List Product) (seen : List String),
      (∀ p ∈ ps, p.url ∈ seen) → (ps.map Product.url).Nodup →
      ((parseLoop guard norm build rest ps seen).map Product.url).Nodup := by
  induction rest with
  | nil => intro ps seen _ hnd; simpa [parseLoop] using hnd
  | cons a rest ih =>
    intro ps seen hinv hnd
    simp only [parseLoop]
    by_cases hg : guard a
    · simp only [hg, if_true]
      by_cases hmem : norm a ∈ seen
      · simp only [hmem, if_true]; exact ih ps seen hinv hnd
      · simp only [hmem, if_false]
        apply ih
        · intro p hp
          rcases List.mem_append.mp hp with h | h
          · exact List.mem_append_left _ (hinv p h)
          · cases hbd : build a (norm a) with
            | none => rw [hbd] at h; cases h
            | some q =>
              rw [hbd] at h
              have : p = q := List.mem_singleton.mp h
              subst this
              rw [hb a (norm a) p hbd]
              exact List.mem_append_right _ (List.mem_singleton.mpr rfl)
        · rw [List.map_append]
          cases hbd : build a (norm a) with
          | none => simpa [hbd] using hnd
          | some q =>
            simp only [Option.toList, List.map_cons, List.map_nil]
            rw [List.nodup_append]
            refine ⟨hnd, by simp, ?_⟩
            intro x hx hx2
            have hxq : x = q.url := List.mem_singleton.mp hx2
            have hq : q.url = norm a := hb a (norm a) q hbd
            rcases List.mem_map.mp hx with ⟨p, hp, hpx⟩
            apply hmem
            rw [← hq, ← hxq, ← hpx]
            exact hinv p hp
    · simp only [hg, if_false]
      exact ih ps seen hinv hnd

/-- Every kept product was built by some guarded anchor of the run from
that anchor's normalized URL. -/
theorem parseLoop_mem (guard : Anchor → Bool) (norm : Anchor → String)
    (build : Anchor → String → Option Product)
    (rest : List Anchor) :
    ∀ (ps : List Product) (seen : List String) (p : Product),
      p ∈ parseLoop guard norm build rest ps seen →
      p ∈ ps ∨ ∃ a, a ∈ rest ∧ build a (norm a) = some p := by
  induction rest with
  | nil => intro ps seen p hp; exact Or.inl (by simpa [parseLoop] using hp)
  | cons a rest ih =>
    intro ps seen p hp
    simp only [parseLoop] at hp
    by_cases hg : guard a
    · rw [if_pos hg] at hp
      by_cases hmem : norm a ∈ seen
      · rw [if_pos hmem] at hp
        rcases ih ps seen p hp with h | ⟨x, hx, hbx⟩
        · exact Or.inl h
        · exact Or.inr ⟨x, List.mem_cons_of_mem a hx, hbx⟩
      · rw [if_neg hmem] at hp
        rcases ih _ _ p hp with h | ⟨x, hx, hbx⟩
        · rcases List.mem_append.mp h with h1 | h1
          · exact Or.inl h1
          · cases hbd : build a (norm a) with
            | none => rw [hbd] at h1; cases h1
            | some q =>
              rw [hbd] at h1
              exact Or.inr ⟨a, List.mem_cons_self a rest,
                by rw [hbd, List.mem_singleton.mp h1]⟩
        · exact Or.inr ⟨x, List.mem_cons_of_mem a hx, hbx⟩
    · rw [if_neg hg] at hp
      rcases ih ps seen p hp with h | ⟨x, hx, hbx⟩
      · exact Or.inl h
      · exact Or.inr ⟨x, List.mem_cons_of_mem a hx, hbx⟩

/-- A product built by the Sezane per-anchor parser carries the URL it
was built from. -/
theorem sezane_parse_product_link_url (a : Anchor) (u : String) (p : Product)
    (h : SezaneScraper.parse_product_link a u = some p) : p.url = u := by
  unfold SezaneScraper.parse_product_link at h
  cases him : imageUrlFromImg sezaneBaseUrl a.img with
  | none => rw [him] at h; cases h
  | some iu => rw [him] at h; cases h; rfl

/-- A product built by the Arket per-anchor parser carries the URL it
was built from. -/
theorem arket_parse_product_link_url (a : Anchor) (u : String) (p : Product)
    (h : ArketScraper.parse_product_link a u = some p) : p.url = u := by
  unfold ArketScraper.parse_product_link at h
  cases him : imageUrlFromImg arketBaseUrl a.img with
  | none => rw [him] at h; cases h
  | some iu => rw [him] at h; cases h; rfl

/-- The fragment-stripping (resp. query-stripping) normalization never
leaves the stripped character in its output. -/
theorem pySplitHeadChar_not_mem (c : Char) (s : String) : c ∉ (pySplitHeadChar c s).data := by
  intro hc
  have hc' : c ∈ s.data.takeWhile (fun x => x != c) := hc
  have := List.mem_takeWhile_imp hc'
  simp at this

/-- Every collected result passed the `score >= min_score` comparison
and came from one dispatched product's completed task. -/
theorem collect_results_spec (jp : String → Option JVal) (env : Product → Oracle)
    (k : Int) (l : List Product) (r : MatchResult)
    (hr : r ∈ ProductMatcher.collect_results jp env k l) :
    pyGeInt r.score k = some true ∧
      ∃ p, p ∈ l ∧ ProductMatcher.match_product jp (env p) p = some r := by
  induction l with
  | nil => simp [ProductMatcher.collect_results] at hr
  | cons p rest ih =>
    simp only [ProductMatcher.collect_results] at hr
    split at hr
    next r0 hm =>
      split at hr
      next hs =>
        rcases List.mem_cons.mp hr with h | h
        · subst h
          exact ⟨hs, p, List.mem_cons_self p rest, hm⟩
        · rcases ih h with ⟨h1, q, hq, hmq⟩
          exact ⟨h1, q, List.mem_cons_of_mem p hq, hmq⟩
      next _ _ =>
        rcases ih hr with ⟨h1, q, hq, hmq⟩
        exact ⟨h1, q, List.mem_cons_of_mem p hq, hmq⟩
    next hm =>
      rcases ih hr with ⟨h1, q, hq, hmq⟩
      exact ⟨h1, q, List.mem_cons_of_mem p hq, hmq⟩

/-- A dispatched product whose task completed with a result at or above
the threshold contributes that result. -/
theorem collect_results_keeps (jp : String → Option JVal) (env : Product → Oracle)
    (k : Int) (l : List Product) (p : Product) (r : MatchResult)
    (hp : p ∈ l) (hm : ProductMatcher.match_product jp (env p) p = some r)
    (hs : pyGeInt r.score k = some true) :
    r ∈ ProductMatcher.collect_results jp env k l := by
  induction l with
  | nil => cases hp
  | cons q rest ih =>
    simp only [ProductMatcher.collect_results]
    rcases List.mem_cons.mp hp with h | h
    · subst h
      split
      next r0 hm0 =>
        rw [hm] at hm0
        cases hm0
        split
        next hs0 => exact List.mem_cons_self _ _
        next b hb hs0 => rw [hs] at hs0; cases hs0 rfl
      next hm0 => rw [hm] at hm0; cases hm0
    · split
      next r0 hm0 =>
        split
        next hs0 => exact List.mem_cons_of_mem _ (ih h)
        next _ _ => exact ih h
      next hm0 => exact ih h

/-- A score that passes a non-negative threshold also passes the
threshold 0. -/
theorem pyGeInt_zero_of_le (v : JVal) (k : Int) (h : pyGeInt v k = some true)
    (hk : 0 ≤ k) : pyGeInt v 0 = some true := by
  cases v <;> simp [pyGeInt] at h ⊢ <;> omega

/-- A run with at least one usable image has a non-empty input list. -/
theorem valid_images_ne_nil_input (images : List ImgSource)
    (h : StyleAnalyzer.valid_images images ≠ []) : images ≠ [] := by
  intro he
  subst he
  simp [StyleAnalyzer.valid_images] at h

/-- Restricting the analyzer's input to the image list it uses changes
nothing: the content list is idempotent. -/
theorem valid_images_idem (images : List ImgSource) :
    StyleAnalyzer.valid_images (StyleAnalyzer.valid_images images) =
      StyleAnalyzer.valid_images images := by
  unfold StyleAnalyzer.valid_images
  have hlen : ((images.take 10).filter (fun i => i.pathExists)).length ≤ 10 :=
    le_trans (List.length_filter_le _ _) (by simp)
  rw [List.take_of_length_le hlen]
  apply List.filter_eq_self.mpr
  intro a ha
  exact (List.mem_filter.mp ha).2

/-! ## Claims -/

/-- Claim C1 (confirmed): in every scrape run of
`SezaneScraper.parse_products` and `ArketScraper.parse_products`, no
two returned Products share a normalized URL, and whenever the
first-seen guarded anchor normalizing to a URL `u` parses to a product
`p`, then `p` is exactly what the run keeps for `u` — later anchors
normalizing to `u` are skipped. -/
theorem C1_dedup_and_first_seen (anchors : List Anchor) (u : String) (a : Anchor)
    (p : Product) :
    ((SezaneScraper.parse_products anchors).map Product.url).Nodup ∧
    ((ArketScraper.parse_products anchors).map Product.url).Nodup ∧
    (anchors.find? (fun x => sezaneGuard x && (sezaneNorm x == u)) = some a →
      SezaneScraper.parse_product_link a u = some p →
      (SezaneScraper.parse_products anchors).filter (fun q => q.url == u) = [p]) ∧
    (anchors.find? (fun x => arketGuard x && (arketNorm x == u)) = some a →
      ArketScraper.parse_product_link a u = some p →
      (ArketScraper.parse_products anchors).filter (fun q => q.url == u) = [p]) := by
  refine ⟨?_, ?_, ?_, ?_⟩
  · exact parseLoop_nodup sezaneGuard sezaneNorm SezaneScraper.parse_product_link
      sezane_parse_product_link_url anchors [] [] (by simp) (by simp)
  · exact parseLoop_nodup arketGuard arketNorm ArketScraper.parse_product_link
      arket_parse_product_link_url anchors [] [] (by simp) (by simp)
  · intro hfind hbuild
    have h := parseLoop_filter_find sezaneGuard sezaneNorm SezaneScraper.parse_product_link
      sezane_parse_product_link_url u anchors [] [] (by simp)
    rw [hfind] at h
    have h2 : (parseLoop sezaneGuard sezaneNorm SezaneScraper.parse_product_link
        anchors [] []).filter (fun q => q.url == u) = [p] := by simpa [hbuild] using h
    exact h2
  · intro hfind hbuild
    have h := parseLoop_filter_find arketGuard arketNorm ArketScraper.parse_product_link
      arket_parse_product_link_url u anchors [] [] (by simp)
    rw [hfind] at h
    have h2 : (parseLoop arketGuard arketNorm ArketScraper.parse_product_link
        anchors [] []).filter (fun q => q.url == u) = [p] := by simpa [hbuild] using h
    exact h2

/-- Witness for C1: three-including-two anchors that normalize to the
same fragment-stripped URL collapse to the single product built from
the first anchor. -/
theorem C1_dedup_and_first_seen_witness :
    (SezaneScraper.parse_products
        [{ href := "/product/silk-top/blue#size-s" }, { href := "/product/silk-top/blue#size-m" }]).filter
      (fun q => q.url == "https://www.sezane.com/product/silk-top/blue") =
      [{ name := "Silk Top", price := "N/A", url := "https://www.sezane.com/product/silk-top/blue",
         image_url := "", retailer := "Sezane", colors := ["Blue"] }] :=
  (C1_dedup_and_first_seen
      [{ href := "/product/silk-top/blue#size-s" }, { href := "/product/silk-top/blue#size-m" }]
      "https://www.sezane.com/product/silk-top/blue"
      { href := "/product/silk-top/blue#size-s" }
      { name := "Silk Top", price := "N/A", url := "https://www.sezane.com/product/silk-top/blue",
        image_url := "", retailer := "Sezane", colors := ["Blue"] }).2.2.1 rfl rfl

/-- Counterexample to claim C2 as stated: the Sezane scraper strips
only the fragment, so a tracking query string in the anchor's href
survives into the stored `url`. -/
theorem C2_counterexample :
    SezaneScraper.parse_products [{ href := "/product/silk-top/blue?utm_source=nl" }] =
      [{ name := "Silk Top", price := "N/A",
         url := "https://www.sezane.com/product/silk-top/blue?utm_source=nl",
         image_url := "", retailer := "Sezane", colors := ["Blue"] }] ∧
    '?' ∈ ("https://www.sezane.com/product/silk-top/blue?utm_source=nl" : String).data :=
  ⟨rfl, by decide⟩

/-- Claim C2 as amended: each scraper's stored `url` is free of that
scraper's own volatile suffix — no fragment marker in any Sezane
product URL, no query marker in any Arket product URL (the other kind
of suffix is not stripped). -/
theorem C2_amended_own_suffix_stripped (anchors : List Anchor) :
    (∀ p ∈ SezaneScraper.parse_products anchors, '#' ∉ p.url.data) ∧
    (∀ q ∈ ArketScraper.parse_products anchors, '?' ∉ q.url.data) := by
  constructor
  · intro p hp
    rcases parseLoop_mem sezaneGuard sezaneNorm SezaneScraper.parse_product_link
        anchors [] [] p hp with h | ⟨a, _, hb⟩
    · cases h
    · have hu : p.url = sezaneNorm a :=
        sezane_parse_product_link_url a (sezaneNorm a) p hb
      rw [hu]
      exact pySplitHeadChar_not_mem '#' (fullUrl sezaneBaseUrl a.href)
  · intro q hq
    rcases parseLoop_mem arketGuard arketNorm ArketScraper.parse_product_link
        anchors [] [] q hq with h | ⟨a, _, hb⟩
    · cases h
    · have hu : q.url = arketNorm a :=
        arket_parse_product_link_url a (arketNorm a) q hb
      rw [hu]
      exact pySplitHeadChar_not_mem '?' (fullUrl arketBaseUrl a.href)

/-- Witness for the amended C2, on one anchor both scrapers accept. -/
theorem C2_amended_own_suffix_stripped_witness :
    '#' ∉ ({ name := "Top", price := "N/A", url := "https://www.sezane.com/product/top/red",
             image_url := "", retailer := "Sezane", colors := ["Red"] } : Product).url.data ∧
    '?' ∉ ({ name := "Unknown", price := "N/A", url := "https://www.arket.com/product/top/red",
             image_url := "", retailer := "Arket", colors := [] } : Product).url.data :=
  ⟨(C2_amended_own_suffix_stripped [{ href := "/product/top/red" }]).1
      { name := "Top", price := "N/A", url := "https://www.sezane.com/product/top/red",
        image_url := "", retailer := "Sezane", colors := ["Red"] }
      (List.mem_singleton.mpr rfl),
   (C2_amended_own_suffix_stripped [{ href := "/product/top/red" }]).2
      { name := "Unknown", price := "N/A", url := "https://www.arket.com/product/top/red",
        image_url := "", retailer := "Arket", colors := [] }
      (List.mem_singleton.mpr rfl)⟩

/-- Counterexample to claim C3 as stated: the matcher performs no range
validation, so a parsed object carrying `score: 11` yields a
MatchResult whose score is 11 — neither in 1..10 nor the
missing-key default 0. -/
theorem C3_counterexample :
    ProductMatcher.match_product
        (fun s => if s == "RESP" then some (JVal.obj [("score", JVal.num 11)]) else none)
        { imgResp := some { ok := true, contentType := some "image/jpeg", content := "B" }
        , modelText := some "RESP" }
        { name := "A", price := "N/A", url := "u", image_url := "http://img", retailer := "Sezane" } =
      some { product := { name := "A", price := "N/A", url := "u", image_url := "http://img",
                          retailer := "Sezane" }
           , score := JVal.num 11, reasoning := JVal.str "", style_notes := JVal.str ""
           , suggested_pairings := JVal.arr [] } ∧
    ¬((1 ≤ (11 : Int) ∧ (11 : Int) ≤ 10) ∨ (11 : Int) = 0) :=
  ⟨rfl, by decide⟩

/-- Claim C3 as amended: every MatchResult's score is taken verbatim
from the model's parsed JSON object — `result.get("score", 0)` — so it
defaults to 0 exactly when the score key is absent and is otherwise
whatever value the model returned, with the 1..10 range requested in
the prompt but never enforced. -/
theorem C3_amended_score_passthrough (jp : String → Option JVal) (o : Oracle) (p : Product)
    (t : String) (d : List (String × JVal)) (r : MatchResult)
    (hmt : o.modelText = some t)
    (hparse : jp (pyStrip (stripFencing t)) = some (JVal.obj d))
    (hrun : ProductMatcher.match_product jp o p = some r) :
    r.score = (dictGet d "score").getD (JVal.num 0) := by
  unfold ProductMatcher.match_product at hrun
  split at hrun
  · cases hrun
  · split at hrun
    next => cases hrun
    next =>
      simp only [hmt, hparse] at hrun
      cases hrun
      rfl

/-- Witness for the amended C3: with the key present the parsed value
is carried through, with it absent the score is 0. -/
theorem C3_amended_score_passthrough_witness :
    ({ product := { name := "A", price := "N/A", url := "u", image_url := "http://img",
                    retailer := "Sezane" }
     , score := JVal.num 7, reasoning := JVal.str "", style_notes := JVal.str ""
     , suggested_pairings := JVal.arr [] } : MatchResult).score =
      (dictGet [("score", JVal.num 7)] "score").getD (JVal.num 0) :=
  C3_amended_score_passthrough
    (fun s => if s == "RESP" then some (JVal.obj [("score", JVal.num 7)]) else none)
    { imgResp := some { ok := true, contentType := some "image/jpeg", content := "B" }
    , modelText := some "RESP" }
    { name := "A", price := "N/A", url := "u", image_url := "http://img", retailer := "Sezane" }
    "RESP" [("score", JVal.num 7)]
    { product := { name := "A", price := "N/A", url := "u", image_url := "http://img",
                   retailer := "Sezane" }
    , score := JVal.num 7, reasoning := JVal.str "", style_notes := JVal.str ""
    , suggested_pairings := JVal.arr [] }
    rfl rfl rfl

/-- Claim C4 (code bug): the never-raise contract is broken by the
analyzer.  With one readable image and a model response that is a
perfectly valid JSON object merely carrying one unexpected key,
`StyleProfile.from_dict` — i.e. `cls(**data)` — raises a `TypeError`,
and the surrounding handler catches only `json.JSONDecodeError`, so the
error escapes `analyze_style_images` although it is not one of the
declared input errors. -/
theorem C4_uncaught_typeerror_escapes_analyzer :
    StyleAnalyzer.analyze_style_images
        (fun s => if s == "RESP" then
            some (JVal.obj [("summary", JVal.str "minimal"), ("confidence", JVal.num 9)])
          else none)
        (some "RESP") [{ pathExists := true, content := "IMGBYTES", suffix := ".jpg" }] =
      Except.error AnalyzeErr.typeError ∧
    AnalyzeErr.typeError.isInputError = false :=
  ⟨rfl, rfl⟩

/-- Counterexample to claim C5 as stated: the quantification over every
threshold k fails for negative k, because the unvalidated score can
itself be negative.  With a parsed score of -5, min_score = -10 keeps
the result while min_score = 0 rejects it, so the k-output is not a
subset of the 0-output. -/
theorem C5_counterexample :
    ProductMatcher.match_products
        (fun s => if s == "RESP" then some (JVal.obj [("score", JVal.num (-5))]) else none)
        (fun _ => { imgResp := some { ok := true, contentType := some "image/jpeg", content := "B" }
                  , modelText := some "RESP" })
        [{ name := "A", price := "N/A", url := "u", image_url := "http://img", retailer := "Sezane" }]
        (-10) none =
      [{ product := { name := "A", price := "N/A", url := "u", image_url := "http://img",
                      retailer := "Sezane" }
       , score := JVal.num (-5), reasoning := JVal.str "", style_notes := JVal.str ""
       , suggested_pairings := JVal.arr [] }] ∧
    ProductMatcher.match_products
        (fun s => if s == "RESP" then some (JVal.obj [("score", JVal.num (-5))]) else none)
        (fun _ => { imgResp := some { ok := true, contentType := some "image/jpeg", content := "B" }
                  , modelText := some "RESP" })
        [{ name := "A", price := "N/A", url := "u", image_url := "http://img", retailer := "Sezane" }]
        0 none = [] :=
  ⟨rfl, rfl⟩

/-- Claim C5 as amended: with scoring outcomes fixed, every result of a
`min_score = k` run scored at least k, and for every k ≥ 0 the
`min_score = k` output is a subset of the `min_score = 0` output (for
negative k the inclusion can fail, as the counterexample shows). -/
theorem C5_amended_filter_monotone (jp : String → Option JVal) (env : Product → Oracle)
    (products : List Product) (limit : Option Int) (k : Int) (r : MatchResult)
    (hr : r ∈ ProductMatcher.match_products jp env products k limit) :
    (0 ≤ k → r ∈ ProductMatcher.match_products jp env products 0 limit) ∧
    pyGeInt r.score k = some true := by
  have hr' : r ∈ ProductMatcher.collect_results jp env k
      (ProductMatcher.products_to_match products limit) :=
    (List.mem_insertionSort scoreGE).mp hr
  rcases collect_results_spec jp env k _ r hr' with ⟨hsc, p, hp, hm⟩
  refine ⟨?_, hsc⟩
  intro hk
  have h0 : pyGeInt r.score 0 = some true := pyGeInt_zero_of_le _ _ hsc hk
  have hmem : r ∈ ProductMatcher.collect_results jp env 0
      (ProductMatcher.products_to_match products limit) :=
    collect_results_keeps jp env 0 _ p r hp hm h0
  exact (List.mem_insertionSort scoreGE).mpr hmem

/-- Witness for the amended C5 at k = 6. -/
theorem C5_amended_filter_monotone_witness :
    (0 ≤ (6 : Int) →
      ({ product := { name := "A", price := "N/A", url := "u", image_url := "http://img",
                      retailer := "Sezane" }
       , score := JVal.num 7, reasoning := JVal.str "", style_notes := JVal.str ""
       , suggested_pairings := JVal.arr [] } : MatchResult) ∈
        ProductMatcher.match_products
          (fun s => if s == "RESP" then some (JVal.obj [("score", JVal.num 7)]) else none)
          (fun _ => { imgResp := some { ok := true, contentType := some "image/jpeg", content := "B" }
                    , modelText := some "RESP" })
          [{ name := "A", price := "N/A", url := "u", image_url := "http://img", retailer := "Sezane" }]
          0 none) ∧
    pyGeInt (JVal.num 7) 6 = some true :=
  C5_amended_filter_monotone
    (fun s => if s == "RESP" then some (JVal.obj [("score", JVal.num 7)]) else none)
    (fun _ => { imgResp := some { ok := true, contentType := some "image/jpeg", content := "B" }
              , modelText := some "RESP" })
    [{ name := "A", price := "N/A", url := "u", image_url := "http://img", retailer := "Sezane" }]
    none 6
    { product := { name := "A", price := "N/A", url := "u", image_url := "http://img",
                   retailer := "Sezane" }
    , score := JVal.num 7, reasoning := JVal.str "", style_notes := JVal.str ""
    , suggested_pairings := JVal.arr [] }
    (List.mem_singleton.mpr rfl)

/-- Claim C6 (confirmed): the matcher's output is sorted non-increasing
by score — every earlier result's (numeric) score is at least every
adjacent later one's. -/
theorem C6_output_sorted_desc (jp : String → Option JVal) (env : Product → Oracle)
    (products : List Product) (min_score : Int) (limit : Option Int) :
    List.Chain' scoreGE (ProductMatcher.match_products jp env products min_score limit) :=
  (List.sorted_insertionSort scoreGE
    (ProductMatcher.collect_results jp env min_score
      (ProductMatcher.products_to_match products limit))).chain'

/-- Claim C7 (confirmed): a StyleProfile round-trips exactly through
`to_dict`/`from_dict` and through the persisted JSON document of
`save_profile`/`load_profile`: all eight fields come back equal. -/
theorem C7_profile_roundtrip (p : StyleProfile) :
    StyleProfile.from_dict (StyleProfile.to_dict p) = some p ∧
    StyleAnalyzer.load_profile (StyleAnalyzer.save_profile p) = some p :=
  ⟨rfl, rfl⟩

/-- Counterexample to claim C8 as stated: only the first ten supplied
sources are ever considered (`image_paths[:10]`), so a readable
eleventh image does not stop the "No valid images found" input error
even though at least one supplied source is readable. -/
theorem C8_counterexample :
    StyleAnalyzer.analyze_style_images (fun _ => none) none
        (List.replicate 10 ({ pathExists := false, content := "", suffix := "" } : ImgSource) ++
          [{ pathExists := true, content := "X", suffix := ".jpg" }]) =
      Except.error (AnalyzeErr.valueError "No valid images found") ∧
    (List.replicate 10 ({ pathExists := false, content := "", suffix := "" } : ImgSource) ++
        [({ pathExists := true, content := "X", suffix := ".jpg" } : ImgSource)]).any
      (fun i => i.pathExists) = true :=
  ⟨rfl, rfl⟩

/-- Claim C8 as amended: the analyzer raises the "No images provided"
input error on an empty sequence and the "No valid images found" input
error when none of the first ten supplied sources is readable; when at
least one of the first ten is readable, no input error is raised and
the call behaves exactly as if given only the readable sources among
the first ten. -/
theorem C8_amended_input_errors (jp : String → Option JVal) (mt : Option String)
    (images : List ImgSource) :
    (StyleAnalyzer.analyze_style_images jp mt [] =
      Except.error (AnalyzeErr.valueError "No images provided")) ∧
    (images ≠ [] → StyleAnalyzer.valid_images images = [] →
      StyleAnalyzer.analyze_style_images jp mt images =
        Except.error (AnalyzeErr.valueError "No valid images found")) ∧
    (∀ e, StyleAnalyzer.valid_images images ≠ [] →
      StyleAnalyzer.analyze_style_images jp mt images = Except.error e →
      e.isInputError = false) ∧
    (StyleAnalyzer.valid_images images ≠ [] →
      StyleAnalyzer.analyze_style_images jp mt images =
        StyleAnalyzer.analyze_style_images jp mt (StyleAnalyzer.valid_images images)) := by
  refine ⟨rfl, ?_, ?_, ?_⟩
  · intro h1 h2
    simp [StyleAnalyzer.analyze_style_images, h1, h2]
  · intro e hne herr
    have h1 : images ≠ [] := valid_images_ne_nil_input images hne
    simp only [StyleAnalyzer.analyze_style_images] at herr
    rw [if_neg (by simp [h1]), if_neg (by simp [hne])] at herr
    match mt with
    | none =>
      simp only [] at herr
      cases herr
      rfl
    | some t =>
      simp only [] at herr
      split at herr
      · cases herr
      · split at herr
        · cases herr
        · cases herr
          rfl
      · cases herr
        rfl
  · intro hne
    have h1 : images ≠ [] := valid_images_ne_nil_input images hne
    simp only [StyleAnalyzer.analyze_style_images]
    rw [if_neg (by simp [h1]), if_neg (by simp [hne])]
    rw [if_neg (by simp [hne]), if_neg (by simp [valid_images_idem, hne])]

/-- Witness for the amended C8: the empty call fails with the input
error; for one unreadable plus one readable image no input error is
classified, and the call equals the call on just the readable image. -/
theorem C8_amended_input_errors_witness :
    AnalyzeErr.isInputError AnalyzeErr.apiError = false ∧
    StyleAnalyzer.analyze_style_images (fun _ => none) none
        [{ pathExists := false, content := "", suffix := "" },
         { pathExists := true, content := "X", suffix := ".jpg" }] =
      StyleAnalyzer.analyze_style_images (fun _ => none) none
        (StyleAnalyzer.valid_images
          [{ pathExists := false, content := "", suffix := "" },
           { pathExists := true, content := "X", suffix := ".jpg" }]) :=
  ⟨(C8_amended_input_errors (fun _ => none) none
      [{ pathExists := false, content := "", suffix := "" },
       { pathExists := true, content := "X", suffix := ".jpg" }]).2.2.1
      AnalyzeErr.apiError (by simp [StyleAnalyzer.valid_images]) rfl,
   (C8_amended_input_errors (fun _ => none) none
      [{ pathExists := false, content := "", suffix := "" },
       { pathExists := true, content := "X", suffix := ".jpg" }]).2.2.2
      (by simp [StyleAnalyzer.valid_images])⟩

/-- Claim C9 (confirmed): when the fencing-stripped model text fails to
parse as JSON, the analyzer returns — without raising — the profile
whose seven list fields are empty and whose summary is the fixed
sentinel text. -/
theorem C9_parse_failure_sentinel (jp : String → Option JVal) (t : String)
    (images : List ImgSource)
    (himg : StyleAnalyzer.valid_images images ≠ [])
    (hparse : jp (pyStrip (stripFencing t)) = none) :
    StyleAnalyzer.analyze_style_images jp (some t) images =
      Except.ok { color_palette := JVal.arr [], preferred_styles := JVal.arr []
                , silhouettes := JVal.arr [], patterns := JVal.arr []
                , materials := JVal.arr [], aesthetics := JVal.arr []
                , avoid := JVal.arr [], summary := JVal.str "Could not parse style profile" } := by
  have h1 : images ≠ [] := valid_images_ne_nil_input images himg
  simp only [StyleAnalyzer.analyze_style_images]
  rw [if_neg (by simp [h1]), if_neg (by simp [himg])]
  simp only [hparse]

/-- Witness for C9. -/
theorem C9_parse_failure_sentinel_witness :
    StyleAnalyzer.analyze_style_images (fun _ => none) (some "this is not json")
        [{ pathExists := true, content := "X", suffix := ".jpg" }] =
      Except.ok { color_palette := JVal.arr [], preferred_styles := JVal.arr []
                , silhouettes := JVal.arr [], patterns := JVal.arr []
                , materials := JVal.arr [], aesthetics := JVal.arr []
                , avoid := JVal.arr [], summary := JVal.str "Could not parse style profile" } :=
  C9_parse_failure_sentinel (fun _ => none) "this is not json"
    [{ pathExists := true, content := "X", suffix := ".jpg" }]
    (by simp [StyleAnalyzer.valid_images]) rfl

/-- Claim C10 (confirmed): `limit = 0` is falsy like `limit = None`, so
passing 0 truncates nothing: the dispatch list is every image-bearing
product and the output coincides with the un-limited run. -/
theorem C10_limit_zero_is_no_limit (jp : String → Option JVal) (env : Product → Oracle)
    (products : List Product) (min_score : Int) :
    ProductMatcher.products_to_match products (some 0) =
      products.filter (fun p => p.image_url != "") ∧
    ProductMatcher.match_products jp env products min_score (some 0) =
      ProductMatcher.match_products jp env products min_score none :=
  ⟨rfl, rfl⟩
